import Mathlib

/-!
Verification of the YieldSnap client-side financial logic.

The TypeScript source is shallowly embedded in Lean: JS numbers are
modelled as exact rationals (`ℚ`).  Where NaN / Infinity behaviour is
essential (the portfolio-health diversification score), a dedicated
value type `JSVal` with `nan` / `posInf` / `negInf` constructors is
used; it conflates `+0` and `-0`, which is irrelevant for the code
paths modelled here.  `Math.sqrt` and `Math.pow` (with non-integral
exponents) are kept as function parameters, since their values never
matter for the properties proved.  Timestamps, date formatting and
`differenceInDays` are likewise kept as parameters.
-/

namespace YieldSnap

/-- JS `Math.round`: round half toward positive infinity
(`Math.round(0.5) = 1`, `Math.round(-0.5) = 0`). -/
def jsRound (x : ℚ) : ℤ := ⌊x + 1/2⌋

/-- Containment of `sub` as a contiguous sublist of `l`. -/
def listContainsInfix : (l sub : List Char) → Bool
  | [], sub => sub.isEmpty
  | l@(_ :: t), sub => sub.isPrefixOf l || listContainsInfix t sub

/-- JS `String.prototype.includes`: substring containment. -/
def jsIncludes (s sub : String) : Bool := listContainsInfix s.toList sub.toList

/-! ## Yield strategy planner (`src/unnamed/part_000`) -/

/-- One element of the array built by `generateProjectionData`. -/
structure ProjectionEntry where
  day : ℕ
  totalValue : ℚ
  cumulativeYield : ℚ
  netProfit : ℚ
  deriving Repr, DecidableEq

/-- The source's `effectiveApr`: `opportunity.apr > 0 ? opportunity.apr : 5`. -/
def effectiveApr (apr : ℚ) : ℚ := if 0 < apr then apr else 5

/-- The body of the `for (let day = 0; day <= timeHorizon; day++)` loop of
`generateProjectionData`, with the loop state (`currentAmount`,
`cumulativeYield`) passed explicitly and `remaining` iterations left. -/
def generateProjectionFrom (r : ℚ) (reinvestYield : Bool) (investmentAmount totalGasCost : ℚ) :
    (day : ℕ) → (remaining : ℕ) → (currentAmount cumulativeYield : ℚ) → List ProjectionEntry
  | _, 0, _, _ => []
  | day, remaining + 1, currentAmount, cumulativeYield =>
    let dailyYield := currentAmount * r
    let newCumulativeYield := cumulativeYield + dailyYield
    let newCurrentAmount := if reinvestYield then currentAmount + dailyYield else currentAmount
    { day := day
      totalValue := if reinvestYield then newCurrentAmount else investmentAmount + newCumulativeYield
      cumulativeYield := newCumulativeYield
      netProfit := newCumulativeYield - totalGasCost } ::
      generateProjectionFrom r reinvestYield investmentAmount totalGasCost
        (day + 1) remaining newCurrentAmount newCumulativeYield

/-- `generateProjectionData` from the Yield Strategy Planner: iterates
`day = 0 .. timeHorizon` (inclusive) with daily rate
`effectiveApr / 365 / 100`, starting from `currentAmount = investmentAmount`
and `cumulativeYield = 0`. -/
def generateProjectionData (apr investmentAmount totalGasCost : ℚ) (timeHorizon : ℕ)
    (reinvestYield : Bool) : List ProjectionEntry :=
  let effectiveDailyRate := effectiveApr apr / 365 / 100
  generateProjectionFrom effectiveDailyRate reinvestYield investmentAmount totalGasCost
    0 (timeHorizon + 1) investmentAmount 0

/-- JS `Array.prototype.findIndex`: index of the first element satisfying the
predicate, `-1` if there is none. -/
def findIndex (p : α → Bool) : List α → ℤ
  | [] => -1
  | x :: xs =>
    if p x then 0
    else
      let rest := findIndex p xs
      if rest = -1 then -1 else rest + 1

/-- The source's `breakEvenDay`:
`projectionData.findIndex(d => d.netProfit > 0)`. -/
def breakEvenDay (projectionData : List ProjectionEntry) : ℤ :=
  findIndex (fun d => decide (0 < d.netProfit)) projectionData

lemma generateProjectionFrom_length (r : ℚ) (reinvestYield : Bool) (amount gas : ℚ) :
    ∀ (n day : ℕ) (ca cy : ℚ),
      (generateProjectionFrom r reinvestYield amount gas day n ca cy).length = n := by
  intro n
  induction n with
  | zero => intro day ca cy; rfl
  | succ n ih => intro day ca cy; simp [generateProjectionFrom, ih]

lemma generateProjectionFrom_get?_day (r : ℚ) (reinvestYield : Bool) (amount gas : ℚ) :
    ∀ (n i day : ℕ) (ca cy : ℚ), i < n →
      ∃ e, (generateProjectionFrom r reinvestYield amount gas day n ca cy).get? i = some e ∧
        e.day = day + i := by
  intro n
  induction n with
  | zero => intro i day ca cy h; exact absurd h (by omega)
  | succ n ih =>
    intro i day ca cy h
    cases i with
    | zero => exact ⟨_, rfl, rfl⟩
    | succ i =>
      obtain ⟨e, he, hd⟩ := ih i (day + 1) _ _ (by omega)
      refine ⟨e, ?_, by omega⟩
      simpa [generateProjectionFrom] using he

lemma generateProjectionFrom_get?_totalValue (r amount gas : ℚ) :
    ∀ (n i day : ℕ) (ca cy : ℚ), i < n →
      ∃ e, (generateProjectionFrom r true amount gas day n ca cy).get? i = some e ∧
        e.day = day + i ∧ e.totalValue = ca * (1 + r) ^ (i + 1) := by
  intro n
  induction n with
  | zero => intro i day ca cy h; exact absurd h (by omega)
  | succ n ih =>
    intro i day ca cy h
    cases i with
    | zero =>
      refine ⟨_, rfl, rfl, ?_⟩
      show (if true then ca + ca * r else amount + (cy + ca * r)) = ca * (1 + r) ^ (0 + 1)
      simp only [if_true, zero_add, pow_one]
      ring
    | succ i =>
      obtain ⟨e, he, hd, hv⟩ := ih i (day + 1) (ca + ca * r) (cy + ca * r) (by omega)
      refine ⟨e, ?_, by omega, ?_⟩
      · simpa [generateProjectionFrom] using he
      · rw [hv, pow_succ, pow_succ]
        ring

lemma generateProjectionData_get?_day (apr amount gas : ℚ) (T : ℕ) (reinvestYield : Bool)
    (k : ℕ) (e : ProjectionEntry)
    (h : (generateProjectionData apr amount gas T reinvestYield).get? k = some e) :
    e.day = k := by
  have hk : k < T + 1 := by
    have hlt := List.get?_eq_some.mp h
    obtain ⟨hl, -⟩ := hlt
    rwa [generateProjectionData, generateProjectionFrom_length] at hl
  obtain ⟨e', he', hd⟩ :=
    generateProjectionFrom_get?_day (effectiveApr apr / 365 / 100) reinvestYield amount gas
      (T + 1) k 0 amount 0 hk
  rw [generateProjectionData] at h
  rw [h] at he'
  cases he'
  omega

lemma findIndex_cases (p : α → Bool) (l : List α) :
    (findIndex p l = -1 ∧ ∀ x ∈ l, p x = false) ∨
    (∃ k : ℕ, findIndex p l = (k : ℤ) ∧
      (∃ x, l.get? k = some x ∧ p x = true) ∧
      ∀ j x, j < k → l.get? j = some x → p x = false) := by
  induction l with
  | nil => left; exact ⟨rfl, by simp⟩
  | cons a l ih =>
    by_cases ha : p a = true
    · right
      exact ⟨0, by simp [findIndex, ha], ⟨a, rfl, ha⟩, fun j x hj => by omega⟩
    · rcases ih with ⟨h1, h2⟩ | ⟨k, hk, ⟨x, hx, hpx⟩, hmin⟩
      · left
        constructor
        · simp [findIndex, ha, h1]
        · intro x hx
          rcases List.mem_cons.mp hx with rfl | hx
          · simpa using ha
          · exact h2 x hx
      · right
        refine ⟨k + 1, ?_, ⟨x, by simpa using hx, hpx⟩, ?_⟩
        · have hne : (k : ℤ) ≠ -1 := by omega
          simp only [findIndex, ha, if_false]
          rw [hk]
          simp [hne]
          try push_cast
          try ring
        · intro j y hj hy
          cases j with
          | zero =>
            simp only [List.get?_cons_zero, Option.some.injEq] at hy
            subst hy
            simpa using ha
          | succ j =>
            exact hmin j y (by omega) (by simpa using hy)

/-- C5: the break-even day of a projection series is the smallest day index
with strictly positive `netProfit`, and `-1` when no entry has positive
`netProfit`. -/
theorem breakEvenDay_linear_scan (apr amount gas : ℚ) (T : ℕ) (reinvestYield : Bool) :
    (breakEvenDay (generateProjectionData apr amount gas T reinvestYield) = -1 ∧
      ∀ e ∈ generateProjectionData apr amount gas T reinvestYield, ¬ 0 < e.netProfit) ∨
    (∃ k : ℕ, breakEvenDay (generateProjectionData apr amount gas T reinvestYield) = (k : ℤ) ∧
      (∃ e, (generateProjectionData apr amount gas T reinvestYield).get? k = some e ∧
        e.day = k ∧ 0 < e.netProfit) ∧
      ∀ j e, j < k → (generateProjectionData apr amount gas T reinvestYield).get? j = some e →
        ¬ 0 < e.netProfit) := by
  have hcases := findIndex_cases (fun d => decide (0 < d.netProfit))
    (generateProjectionData apr amount gas T reinvestYield)
  rcases hcases with ⟨h1, h2⟩ | ⟨k, hk, ⟨e, he, hpe⟩, hmin⟩
  · left
    refine ⟨h1, fun e he => ?_⟩
    simpa using h2 e he
  · right
    refine ⟨k, hk, ⟨e, he, generateProjectionData_get?_day apr amount gas T reinvestYield k e he,
      by simpa using hpe⟩, fun j e' hj he' => ?_⟩
    simpa using hmin j e' hj he'

/-- C1 (amended): with reinvestment, APR 5, amount 1000 and any horizon of at
least 365 days, the projection entry for day 365 has
`totalValue = 1000 * (1 + 5/365/100) ^ 366`: the entry for day `d` records the
value after `d + 1` daily compounding steps, since day 0's entry already
contains one day of yield. -/
theorem projection_day365_totalValue (gas : ℚ) (T : ℕ) (hT : 365 ≤ T) :
    ∃ e, (generateProjectionData 5 1000 gas T true).get? 365 = some e ∧
      e.day = 365 ∧ e.totalValue = 1000 * (1 + 5 / 365 / 100 : ℚ) ^ 366 := by
  obtain ⟨e, he, hd, hv⟩ :=
    generateProjectionFrom_get?_totalValue (effectiveApr 5 / 365 / 100) 1000 gas
      (T + 1) 365 0 1000 0 (by omega)
  refine ⟨e, he, by omega, ?_⟩
  rw [hv]
  have heff : effectiveApr 5 = 5 := by norm_num [effectiveApr]
  rw [heff]

/-- Witness for `projection_day365_totalValue` at `gas = 9`, `T = 365`. -/
theorem projection_day365_totalValue_witness :
    ∃ e, (generateProjectionData 5 1000 9 365 true).get? 365 = some e ∧
      e.day = 365 ∧ e.totalValue = 1000 * (1 + 5 / 365 / 100 : ℚ) ^ 366 :=
  projection_day365_totalValue 9 365 (by norm_num)

/-- C1 as stated is false: at APR 5, amount 1000, horizon 365 with
reinvestment, the day-365 entry's `totalValue` is not
`1000 * (1 + 5/365/100) ^ 365` (it is `1000 * (1 + 5/365/100) ^ 366`). -/
theorem projection_day365_claim_counterexample :
    ∃ e, (generateProjectionData 5 1000 9 365 true).get? 365 = some e ∧
      e.totalValue ≠ 1000 * (1 + 5 / 365 / 100 : ℚ) ^ 365 := by
  obtain ⟨e, he, hd, hv⟩ :=
    generateProjectionFrom_get?_totalValue (effectiveApr 5 / 365 / 100) 1000 9
      366 365 0 1000 0 (by omega)
  refine ⟨e, he, ?_⟩
  rw [hv]
  have heq : effectiveApr 5 / 365 / 100 = (5 : ℚ) / 365 / 100 := by norm_num [effectiveApr]
  rw [heq]
  intro hcontra
  have hq : (1 + (5 : ℚ) / 365 / 100) = 7301 / 7300 := by norm_num
  rw [hq] at hcontra
  have hstep : ((7301 : ℚ) / 7300) ^ 366 = ((7301 : ℚ) / 7300) ^ 365 := by
    have h1000 : (1000 : ℚ) ≠ 0 := by norm_num
    exact mul_left_cancel₀ h1000 hcontra
  have hsucc : ((7301 : ℚ) / 7300) ^ 365 * (7301 / 7300) = ((7301 : ℚ) / 7300) ^ 365 * 1 := by
    rw [mul_one, ← pow_succ]
    exact hstep
  have hq1 : ((7301 : ℚ) / 7300) = 1 :=
    mul_left_cancel₀ (pow_ne_zero 365 (by norm_num)) hsucc
  norm_num at hq1

/-! ## Portfolio tracker (`src/components/portfolio/PortfolioTracker.tsx`)

The JS code wraps numeric field accesses in `safeNumber(value, default)`,
which substitutes the default for non-numbers and NaN.  In this rational
embedding every field is a number, so those guards are identities and are
not written out; the NaN-replacement behaviour of
`calculateInvestmentRiskScore` is modelled explicitly with `Option ℚ`
inputs, since claim C9 mentions it. -/

/-- A reward token entry (`interface RewardToken`). -/
structure RewardToken where
  symbol : String
  amount : ℚ
  value : ℚ
  apr : ℚ
  deriving Repr, DecidableEq

/-- An investment (`interface Investment`). -/
structure Investment where
  id : String
  poolId : String
  poolName : String
  protocol : String
  amount : ℚ
  apy : ℚ
  startDate : String
  dailyEarnings : List ℚ
  totalEarnings : ℚ
  currentValue : ℚ
  impermanentLoss : ℚ
  tradingFees : ℚ
  rewardTokens : List RewardToken
  riskScore : ℚ
  volatility : ℚ
  deriving Repr, DecidableEq

/-- The portfolio (`interface Portfolio`). -/
structure Portfolio where
  investments : List Investment
  totalInvested : ℚ
  totalCurrentValue : ℚ
  totalEarnings : ℚ
  averageApy : ℚ
  deriving Repr, DecidableEq

/-- The default portfolio state used when nothing is saved in local storage. -/
def initialPortfolio : Portfolio :=
  { investments := []
    totalInvested := 0
    totalCurrentValue := 0
    totalEarnings := 0
    averageApy := 0 }

/-- The `newInvestment` form state consumed by `addInvestment`. -/
structure NewInvestmentInput where
  poolName : String
  protocol : String
  amount : ℚ
  apy : ℚ
  startDate : String
  volatility : ℚ
  rewardTokens : List RewardToken
  deriving Repr, DecidableEq

/-- The component's `calculateInvestmentRiskScore(protocol, volatility, apy)`.
`volatility` and `apy` are `Option ℚ`, `none` standing for JS `NaN` (or a
non-number), which the source replaces with the default `5`. -/
def calculateInvestmentRiskScore (protocol : String) (volatility apy : Option ℚ) : ℚ :=
  let safeVolatility := volatility.getD 5
  let safeApy := apy.getD 5
  let protocolLower := protocol.toLower
  let protocolAdj : ℚ :=
    if ["uniswap", "curve", "aave", "compound"].any (fun q => jsIncludes protocolLower q) then -10
    else if ["sushiswap", "balancer", "yearn"].any (fun q => jsIncludes protocolLower q) then -5
    else if ["pancakeswap", "quickswap"].any (fun q => jsIncludes protocolLower q) then 5
    else 10
  let volatilityAdj : ℚ :=
    if safeVolatility < 5 then -10
    else if 20 < safeVolatility then 15
    else if 10 < safeVolatility then 5
    else 0
  let apyAdj : ℚ :=
    if 100 < safeApy then 20
    else if 50 < safeApy then 10
    else if 20 < safeApy then 5
    else 0
  let riskScore := 50 + protocolAdj + volatilityAdj + apyAdj
  max 0 (min 100 riskScore)

/-- `addInvestment`: builds the new `Investment` record (including estimated
impermanent loss, fee split, default reward tokens and risk score), appends it,
and recomputes all aggregates.  `id` stands for the time-dependent
`inv-${Date.now()}`.  JS `newInvestment.volatility || 5` treats `0` as falsy. -/
def addInvestment (p : Portfolio) (id : String) (newInvestment : NewInvestmentInput) : Portfolio :=
  let dailyRate := newInvestment.apy / 365 / 100
  let dailyEarning := newInvestment.amount * dailyRate
  let estimatedVolatility := if newInvestment.volatility = 0 then 5 else newInvestment.volatility
  let estimatedImpermanentLoss := newInvestment.amount * (estimatedVolatility / 100) ^ 2 * 25
  let estimatedTradingFees := dailyEarning * (7/10)
  let estimatedRewardValue := dailyEarning * (3/10)
  let defaultRewardTokens : List RewardToken :=
    if 0 < newInvestment.rewardTokens.length then newInvestment.rewardTokens
    else if jsIncludes newInvestment.protocol.toLower "uniswap" then
      [{ symbol := "UNI", amount := estimatedRewardValue / 5,
         value := estimatedRewardValue, apr := newInvestment.apy * (3/10) }]
    else if jsIncludes newInvestment.protocol.toLower "sushi" then
      [{ symbol := "SUSHI", amount := estimatedRewardValue / (6/5),
         value := estimatedRewardValue, apr := newInvestment.apy * (3/10) }]
    else
      [{ symbol := (newInvestment.protocol.take 4).toUpper, amount := estimatedRewardValue / 2,
         value := estimatedRewardValue, apr := newInvestment.apy * (3/10) }]
  let riskScore := calculateInvestmentRiskScore newInvestment.protocol
    (some estimatedVolatility) (some newInvestment.apy)
  let investment : Investment :=
    { id := id
      poolId := id
      poolName := newInvestment.poolName
      protocol := newInvestment.protocol
      amount := newInvestment.amount
      apy := newInvestment.apy
      startDate := newInvestment.startDate
      dailyEarnings := [dailyEarning]
      totalEarnings := 0
      currentValue := newInvestment.amount
      impermanentLoss := estimatedImpermanentLoss
      tradingFees := estimatedTradingFees
      rewardTokens := defaultRewardTokens
      riskScore := riskScore
      volatility := estimatedVolatility }
  let updatedInvestments := p.investments ++ [investment]
  let totalInvested := updatedInvestments.foldl (fun sum inv => sum + inv.amount) 0
  let totalCurrentValue := updatedInvestments.foldl (fun sum inv => sum + inv.currentValue) 0
  let totalEarnings := totalCurrentValue - totalInvested
  let averageApy := updatedInvestments.foldl (fun sum inv => sum + inv.apy * inv.amount) 0 /
    totalInvested
  { investments := updatedInvestments
    totalInvested := totalInvested
    totalCurrentValue := totalCurrentValue
    totalEarnings := totalEarnings
    averageApy := averageApy }

/-- `removeInvestment`: filters out the investment with the given id; if the
list becomes empty all aggregates are reset to zero, otherwise they are
recomputed from the remaining investments. -/
def removeInvestment (p : Portfolio) (id : String) : Portfolio :=
  let updatedInvestments := p.investments.filter (fun inv => inv.id != id)
  if updatedInvestments.length = 0 then
    { investments := []
      totalInvested := 0
      totalCurrentValue := 0
      totalEarnings := 0
      averageApy := 0 }
  else
    let totalInvested := updatedInvestments.foldl (fun sum inv => sum + inv.amount) 0
    let totalCurrentValue := updatedInvestments.foldl (fun sum inv => sum + inv.currentValue) 0
    let totalEarnings := totalCurrentValue - totalInvested
    let averageApy := updatedInvestments.foldl (fun sum inv => sum + inv.apy * inv.amount) 0 /
      totalInvested
    { investments := updatedInvestments
      totalInvested := totalInvested
      totalCurrentValue := totalCurrentValue
      totalEarnings := totalEarnings
      averageApy := averageApy }

/-- `simulateSingleDayWithoutStateUpdate`: advances every investment by one
simulated day (with the 1.5 growth multiplier used for visualisation) and
recomputes the aggregates.  `sqrtFn` stands for `Math.sqrt`; `daysSince`
stands for `differenceInDays(new Date(), startDate)`, `none` marking an
invalid start date (in which case the source keeps `daysSinceStart = 1`;
its `try`/`catch` fallbacks cannot fire in this pure embedding). -/
def simulateSingleDayWithoutStateUpdate (sqrtFn : ℚ → ℚ) (daysSince : String → Option ℤ)
    (currentPortfolio : Portfolio) : Portfolio :=
  let growthMultiplier : ℚ := 3/2
  let updatedInvestments := currentPortfolio.investments.map (fun investment =>
    let amount := investment.amount
    let apy := investment.apy
    let currentValue := investment.currentValue
    let totalEarnings := investment.totalEarnings
    let impermanentLoss := investment.impermanentLoss
    let tradingFees := investment.tradingFees
    let dailyRate := (apy / 365 / 100) * growthMultiplier
    let dailyEarning := currentValue * dailyRate
    let daysSinceStart : ℤ :=
      match daysSince investment.startDate with
      | some d => max 1 (d + 1)
      | none => 1
    let dailyImpermanentLoss := impermanentLoss / sqrtFn (Int.cast daysSinceStart) * (1/10)
    let dailyTradingFees := dailyEarning * (7/10)
    let dailyRewardValue := dailyEarning * (3/10)
    let updatedRewardTokens := investment.rewardTokens.map (fun token =>
      let tokenValue := token.value
      let tokenAmount := token.amount
      { token with
        amount := tokenAmount + dailyRewardValue / tokenValue * tokenAmount
        value := tokenValue + dailyRewardValue })
    let netDailyEarning := dailyTradingFees + dailyRewardValue - dailyImpermanentLoss
    let newTotalEarnings := totalEarnings + netDailyEarning
    let newCurrentValue := amount + newTotalEarnings
    { investment with
      dailyEarnings := investment.dailyEarnings ++ [netDailyEarning]
      totalEarnings := newTotalEarnings
      currentValue := newCurrentValue
      impermanentLoss := impermanentLoss + dailyImpermanentLoss
      tradingFees := tradingFees + dailyTradingFees
      rewardTokens := if 0 < updatedRewardTokens.length then updatedRewardTokens
        else investment.rewardTokens })
  let totalInvested : ℚ := updatedInvestments.foldl (fun sum inv => sum + inv.amount) 0
  let totalCurrentValue : ℚ := updatedInvestments.foldl (fun sum inv => sum + inv.currentValue) 0
  let totalEarnings := totalCurrentValue - totalInvested
  let averageApy := if 0 < totalInvested then
      updatedInvestments.foldl (fun sum inv => sum + inv.apy * inv.amount) 0 / totalInvested
    else 0
  { investments := updatedInvestments
    totalInvested := totalInvested
    totalCurrentValue := totalCurrentValue
    totalEarnings := totalEarnings
    averageApy := averageApy }

/-- Aggregates are exactly the from-scratch recomputation described by the
spec: sums of the investments' fields, difference, and amount-weighted
average APY. -/
def aggConsistent (p : Portfolio) : Prop :=
  p.totalInvested = (p.investments.map (·.amount)).sum ∧
  p.totalCurrentValue = (p.investments.map (·.currentValue)).sum ∧
  p.totalEarnings = p.totalCurrentValue - p.totalInvested ∧
  p.averageApy = (p.investments.map (fun inv => inv.apy * inv.amount)).sum / p.totalInvested

lemma foldl_add_map (f : α → ℚ) : ∀ (l : List α) (a : ℚ),
    l.foldl (fun s x => s + f x) a = a + (l.map f).sum := by
  intro l
  induction l with
  | nil => intro a; simp
  | cons x t ih => intro a; simp [ih, add_assoc]

lemma simulate_investments_map_amount (sqrtFn : ℚ → ℚ) (daysSince : String → Option ℤ)
    (p : Portfolio) :
    ((simulateSingleDayWithoutStateUpdate sqrtFn daysSince p).investments.map (·.amount)) =
      p.investments.map (·.amount) := by
  unfold simulateSingleDayWithoutStateUpdate
  simp [List.map_map]

/-- C9: for every protocol string and every volatility and APY input
(`none` standing for NaN, replaced by the default 5), the investment risk
score lies in the closed interval [0, 100]. -/
theorem investment_risk_score_bounds (protocol : String) (volatility apy : Option ℚ) :
    0 ≤ calculateInvestmentRiskScore protocol volatility apy ∧
      calculateInvestmentRiskScore protocol volatility apy ≤ 100 := by
  unfold calculateInvestmentRiskScore
  exact ⟨le_max_left _ _, max_le (by norm_num) (min_le_left _ _)⟩
lemma add_aggConsistent (p : Portfolio) (id : String) (inp : NewInvestmentInput) :
    aggConsistent (addInvestment p id inp) := by
  unfold aggConsistent addInvestment
  simp [foldl_add_map]

lemma remove_aggConsistent (p : Portfolio) (id : String) :
    aggConsistent (removeInvestment p id) := by
  unfold removeInvestment
  by_cases h : (p.investments.filter (fun inv => inv.id != id)).length = 0
  · simp [aggConsistent, h]
  · simp [aggConsistent, h, foldl_add_map]

lemma simulate_aggConsistent (sqrtFn : ℚ → ℚ) (daysSince : String → Option ℤ) (p : Portfolio)
    (hamt : ∀ inv ∈ p.investments, 0 ≤ inv.amount) :
    aggConsistent (simulateSingleDayWithoutStateUpdate sqrtFn daysSince p) := by
  have hinv : (simulateSingleDayWithoutStateUpdate sqrtFn daysSince p).totalInvested =
      ((simulateSingleDayWithoutStateUpdate sqrtFn daysSince p).investments.map (·.amount)).sum := by
    unfold simulateSingleDayWithoutStateUpdate
    simp [foldl_add_map]
  have hcv : (simulateSingleDayWithoutStateUpdate sqrtFn daysSince p).totalCurrentValue =
      ((simulateSingleDayWithoutStateUpdate sqrtFn daysSince p).investments.map
        (·.currentValue)).sum := by
    unfold simulateSingleDayWithoutStateUpdate
    simp [foldl_add_map]
  have havg : (simulateSingleDayWithoutStateUpdate sqrtFn daysSince p).averageApy =
      if 0 < (simulateSingleDayWithoutStateUpdate sqrtFn daysSince p).totalInvested then
        ((simulateSingleDayWithoutStateUpdate sqrtFn daysSince p).investments.map
          (fun inv => inv.apy * inv.amount)).sum /
          (simulateSingleDayWithoutStateUpdate sqrtFn daysSince p).totalInvested
      else 0 := by
    unfold simulateSingleDayWithoutStateUpdate
    simp [foldl_add_map]
  refine ⟨hinv, hcv, rfl, ?_⟩
  rw [havg]
  split_ifs with h
  · rfl
  · have h0 : (simulateSingleDayWithoutStateUpdate sqrtFn daysSince p).totalInvested = 0 := by
      rw [hinv, simulate_investments_map_amount]
      have hnn : 0 ≤ (p.investments.map (·.amount)).sum :=
        List.sum_nonneg (by
          intro x hx
          obtain ⟨inv, hinvmem, rfl⟩ := List.mem_map.mp hx
          exact hamt inv hinvmem)
      rw [hinv, simulate_investments_map_amount] at h
      linarith
    rw [h0, div_zero]

/-- C3: after each of the three portfolio mutations (`addInvestment`,
`removeInvestment`, one simulated day), the aggregate fields equal the
from-scratch recomputation from the resulting investments list: sum of
amounts, sum of current values, their difference, and amount-weighted
average APY.  Investment amounts are assumed nonnegative (as produced by the
form); division by the zero total follows the rational convention
`x / 0 = 0`, matching the code's explicit zero fallbacks. -/
theorem aggregates_recomputed (p : Portfolio) (id rid : String) (inp : NewInvestmentInput)
    (sqrtFn : ℚ → ℚ) (daysSince : String → Option ℤ)
    (hamt : ∀ inv ∈ p.investments, 0 ≤ inv.amount) :
    aggConsistent (addInvestment p id inp) ∧
    aggConsistent (removeInvestment p rid) ∧
    aggConsistent (simulateSingleDayWithoutStateUpdate sqrtFn daysSince p) :=
  ⟨add_aggConsistent p id inp, remove_aggConsistent p rid,
    simulate_aggConsistent sqrtFn daysSince p hamt⟩

/-- Witness for `aggregates_recomputed` at the empty initial portfolio. -/
theorem aggregates_recomputed_witness :
    aggConsistent (addInvestment initialPortfolio "inv-1"
      { poolName := "USDC-ETH", protocol := "Uniswap", amount := 100, apy := 5,
        startDate := "2024-01-01", volatility := 5, rewardTokens := [] }) ∧
    aggConsistent (removeInvestment initialPortfolio "inv-1") ∧
    aggConsistent (simulateSingleDayWithoutStateUpdate (fun q => q) (fun _ => none)
      initialPortfolio) :=
  aggregates_recomputed initialPortfolio "inv-1" "inv-1"
    { poolName := "USDC-ETH", protocol := "Uniswap", amount := 100, apy := 5,
      startDate := "2024-01-01", volatility := 5, rewardTokens := [] }
    (fun q => q) (fun _ => none) (by simp [initialPortfolio])

lemma addInvestment_investments_ne_nil (p : Portfolio) (id : String) (inp : NewInvestmentInput) :
    (addInvestment p id inp).investments ≠ [] := by
  simp [addInvestment]

lemma removeInvestment_empty_zero (p : Portfolio) (id : String)
    (he : (removeInvestment p id).investments = []) :
    (removeInvestment p id).totalInvested = 0 ∧
      (removeInvestment p id).totalCurrentValue = 0 ∧
      (removeInvestment p id).totalEarnings = 0 ∧
      (removeInvestment p id).averageApy = 0 := by
  unfold removeInvestment at he ⊢
  by_cases h : (p.investments.filter (fun inv => inv.id != id)).length = 0
  · simp [h]
  · simp [h] at he
    exfalso
    apply h
    rw [List.length_eq_zero, List.filter_eq_nil_iff]
    intro a ha
    simp [he a ha]

lemma simulate_empty_zero (sqrtFn : ℚ → ℚ) (daysSince : String → Option ℤ) (p : Portfolio)
    (he : (simulateSingleDayWithoutStateUpdate sqrtFn daysSince p).investments = []) :
    (simulateSingleDayWithoutStateUpdate sqrtFn daysSince p).totalInvested = 0 ∧
      (simulateSingleDayWithoutStateUpdate sqrtFn daysSince p).totalCurrentValue = 0 ∧
      (simulateSingleDayWithoutStateUpdate sqrtFn daysSince p).totalEarnings = 0 ∧
      (simulateSingleDayWithoutStateUpdate sqrtFn daysSince p).averageApy = 0 := by
  have hq : p.investments = [] := by
    unfold simulateSingleDayWithoutStateUpdate at he
    simpa using he
  unfold simulateSingleDayWithoutStateUpdate
  rw [hq]
  norm_num

/-- One user-visible portfolio mutation: adding an investment, removing one,
or one simulated day (the step used by both the animated and the
fast-forward simulation). -/
inductive PortfolioStep : Portfolio → Portfolio → Prop
  | add (p : Portfolio) (id : String) (inp : NewInvestmentInput) :
      PortfolioStep p (addInvestment p id inp)
  | remove (p : Portfolio) (id : String) : PortfolioStep p (removeInvestment p id)
  | simulate (p : Portfolio) (sqrtFn : ℚ → ℚ) (daysSince : String → Option ℤ) :
      PortfolioStep p (simulateSingleDayWithoutStateUpdate sqrtFn daysSince p)

/-- Portfolio states reachable from the initial empty portfolio. -/
inductive ReachablePortfolio : Portfolio → Prop
  | init : ReachablePortfolio initialPortfolio
  | step {p q : Portfolio} : ReachablePortfolio p → PortfolioStep p q → ReachablePortfolio q

/-- C4: every reachable portfolio state whose investments list is empty has
all aggregate fields equal to zero. -/
theorem empty_reachable_portfolio_zero (p : Portfolio) (hr : ReachablePortfolio p)
    (he : p.investments = []) :
    p.totalInvested = 0 ∧ p.totalCurrentValue = 0 ∧ p.totalEarnings = 0 ∧ p.averageApy = 0 := by
  cases hr with
  | init => exact ⟨rfl, rfl, rfl, rfl⟩
  | step hq hstep =>
    cases hstep with
    | add id inp => exact absurd he (addInvestment_investments_ne_nil _ id inp)
    | remove id => exact removeInvestment_empty_zero _ id he
    | simulate sqrtFn daysSince => exact simulate_empty_zero sqrtFn daysSince _ he

/-- Witness for `empty_reachable_portfolio_zero` at the initial portfolio. -/
theorem empty_reachable_portfolio_zero_witness :
    initialPortfolio.totalInvested = 0 ∧ initialPortfolio.totalCurrentValue = 0 ∧
      initialPortfolio.totalEarnings = 0 ∧ initialPortfolio.averageApy = 0 :=
  empty_reachable_portfolio_zero initialPortfolio ReachablePortfolio.init rfl



/-! ## Visual (timer-driven) simulation state -/

/-- The `simulationSummary` record built when the animated run finishes. -/
structure SimulationSummary where
  initialValue : ℚ
  finalValue : ℚ
  totalGrowth : ℚ
  percentageGrowth : ℚ
  dailyAverage : ℚ
  projectedAnnualReturn : ℚ
  deriving Repr, DecidableEq

/-- The component state touched by `simulateDailyUpdate(days, true)`:
the real portfolio, the parsed `yield-snap-portfolio` local-storage value,
and the display-only simulation state. -/
structure TrackerState where
  portfolio : Portfolio
  storedPortfolio : Option Portfolio
  isSimulating : Bool
  simulationProgress : ℤ
  simulationHistory : List (String × ℚ)
  simulatedPortfolioResult : Option Portfolio
  simulationSummary : Option SimulationSummary
  simulationComplete : Bool

/-- The `setInterval` ticks of the animated simulation: starting at
`currentDay`, each tick advances the working copy by one simulated day,
updates the progress percentage and appends a history point, until
`currentDay >= days`.  Returns the final working copy, history and
progress.  `labelOf d` stands for `format(addDays(initialDate, d), 'MMM dd')`. -/
def visualTicks (step : Portfolio → Portfolio) (labelOf : ℕ → String) (days currentDay : ℕ)
    (sim : Portfolio) (history : List (String × ℚ)) (progress : ℤ) :
    Portfolio × List (String × ℚ) × ℤ :=
  if _h : days ≤ currentDay then (sim, history, progress)
  else
    let sim2 := step sim
    let nextDay := currentDay + 1
    let progress2 := jsRound ((nextDay : ℚ) / (days : ℚ) * 100)
    let history2 := history ++ [(labelOf nextDay, sim2.totalCurrentValue)]
    visualTicks step labelOf days nextDay sim2 history2 progress2
termination_by days - currentDay
decreasing_by omega

/-- The `showProgress = true` branch of `simulateDailyUpdate`: the animated,
timer-driven simulation.  It works on a deep copy of the portfolio, drives
only the display state (progress, history, result, summary, flags) and never
calls `setPortfolio` or `localStorage.setItem`.  `powFn` stands for
`Math.pow`. -/
def simulateDailyUpdateVisual (sqrtFn : ℚ → ℚ) (daysSince : String → Option ℤ)
    (powFn : ℚ → ℚ → ℚ) (labelOf : ℕ → String) (s : TrackerState) (days : ℕ) : TrackerState :=
  if days = 0 ∨ s.portfolio.investments = [] then s
  else
    let initialValue := s.portfolio.totalCurrentValue
    let res := visualTicks (simulateSingleDayWithoutStateUpdate sqrtFn daysSince) labelOf days 0
      s.portfolio [(labelOf 0, initialValue)] 0
    let finalSim := res.1
    let history := res.2.1
    let finalProgress := res.2.2
    let newSummary : Option SimulationSummary :=
      if 1 < history.length then
        let iv := ((history.get? 0).map Prod.snd).getD 0
        let fv := ((history.get? (history.length - 1)).map Prod.snd).getD 0
        let totalGrowth := fv - iv
        some { initialValue := iv
               finalValue := fv
               totalGrowth := totalGrowth
               percentageGrowth := totalGrowth / iv * 100
               dailyAverage := totalGrowth / (days : ℚ)
               projectedAnnualReturn := (powFn (fv / iv) ((365 : ℚ) / (days : ℚ)) - 1) * 100 }
      else s.simulationSummary
    { s with
      isSimulating := false
      simulationProgress := finalProgress
      simulationHistory := history
      simulatedPortfolioResult := some finalSim
      simulationSummary := newSummary
      simulationComplete := true }

/-- C2: the animated day-by-day simulation is purely cosmetic: for every
portfolio, storage value and number of simulated days, it leaves the real
portfolio state and the `yield-snap-portfolio` local-storage value unchanged;
only display state is affected. -/
theorem visual_simulation_cosmetic (sqrtFn : ℚ → ℚ) (daysSince : String → Option ℤ)
    (powFn : ℚ → ℚ → ℚ) (labelOf : ℕ → String) (s : TrackerState) (days : ℕ) :
    (simulateDailyUpdateVisual sqrtFn daysSince powFn labelOf s days).portfolio = s.portfolio ∧
    (simulateDailyUpdateVisual sqrtFn daysSince powFn labelOf s days).storedPortfolio =
      s.storedPortfolio := by
  unfold simulateDailyUpdateVisual
  split
  · exact ⟨rfl, rfl⟩
  · exact ⟨rfl, rfl⟩


/-! ## Portfolio health: diversification score

`calculatePortfolioHealth` divides `(hhi - perfectHHI)` by
`(worstHHI - perfectHHI)`, which is zero for a single-protocol portfolio, so
the JS NaN / Infinity semantics of division matter here.  `JSVal` models a
JS number as an exact rational, NaN, or a signed infinity (`+0` and `-0`
are conflated; the only division by zero reachable below has numerator
zero, where the distinction is irrelevant). -/

/-- A JS number: a finite (exact) value, NaN, or a signed infinity. -/
inductive JSVal where
  | num (q : ℚ)
  | nan
  | posInf
  | negInf
  deriving Repr, DecidableEq

/-- JS addition on `JSVal`. -/
def JSVal.add : JSVal → JSVal → JSVal
  | num a, num b => num (a + b)
  | nan, _ => nan
  | _, nan => nan
  | posInf, negInf => nan
  | negInf, posInf => nan
  | posInf, _ => posInf
  | _, posInf => posInf
  | negInf, _ => negInf
  | _, negInf => negInf

/-- JS subtraction on `JSVal`. -/
def JSVal.sub : JSVal → JSVal → JSVal
  | num a, num b => num (a - b)
  | nan, _ => nan
  | _, nan => nan
  | posInf, posInf => nan
  | negInf, negInf => nan
  | posInf, _ => posInf
  | _, negInf => posInf
  | negInf, _ => negInf
  | _, posInf => negInf

/-- JS multiplication on `JSVal`. -/
def JSVal.mul : JSVal → JSVal → JSVal
  | num a, num b => num (a * b)
  | nan, _ => nan
  | _, nan => nan
  | posInf, posInf => posInf
  | posInf, negInf => negInf
  | negInf, posInf => negInf
  | negInf, negInf => posInf
  | posInf, num b => if b = 0 then nan else if 0 < b then posInf else negInf
  | num a, posInf => if a = 0 then nan else if 0 < a then posInf else negInf
  | negInf, num b => if b = 0 then nan else if 0 < b then negInf else posInf
  | num a, negInf => if a = 0 then nan else if 0 < a then negInf else posInf

/-- JS division on `JSVal` (division of a nonzero value by zero gives a
signed infinity, `0 / 0` gives NaN). -/
def JSVal.div : JSVal → JSVal → JSVal
  | nan, _ => nan
  | _, nan => nan
  | num a, num b =>
    if b = 0 then (if a = 0 then nan else if 0 < a then posInf else negInf)
    else num (a / b)
  | posInf, posInf => nan
  | posInf, negInf => nan
  | negInf, posInf => nan
  | negInf, negInf => nan
  | posInf, num b => if 0 ≤ b then posInf else negInf
  | negInf, num b => if 0 ≤ b then negInf else posInf
  | num _, posInf => num 0
  | num _, negInf => num 0

/-- JS `Math.round` on `JSVal` (`Math.round(NaN) = NaN`,
`Math.round(±Infinity) = ±Infinity`). -/
def JSVal.round : JSVal → JSVal
  | num q => num (jsRound q : ℤ)
  | v => v

/-- JS `new Set(list)` / object-key insertion order: the distinct elements of
a list, first occurrences first. -/
def distinctFirst (l : List String) : List String :=
  l.foldl (fun acc s => if s ∈ acc then acc else acc ++ [s]) []

/-- The `diversificationScore` computed by `calculatePortfolioHealth`: for an
empty portfolio it is 0 (early return); otherwise the Herfindahl-Hirschman
index over the per-protocol invested amounts is normalised between
`perfectHHI = 1/n` and `worstHHI = 1` and converted to a 0-100 score. -/
def diversificationScoreOf (p : Portfolio) : JSVal :=
  if p.investments = [] then JSVal.num 0
  else
    let protocols := distinctFirst (p.investments.map (·.protocol))
    let protocolDistribution := protocols.map (fun pr =>
      ((p.investments.filter (fun inv => inv.protocol == pr)).map (·.amount)).sum)
    let totalInvested := p.totalInvested
    let hhi := protocolDistribution.foldl (fun sum amount =>
      let marketShare := JSVal.div (JSVal.num amount) (JSVal.num totalInvested)
      JSVal.add sum (JSVal.mul marketShare marketShare)) (JSVal.num 0)
    let perfectHHI : ℚ := 1 / (protocols.length : ℚ)
    let worstHHI : ℚ := 1
    let normalizedHHI := JSVal.div (JSVal.sub hhi (JSVal.num perfectHHI))
      (JSVal.num (worstHHI - perfectHHI))
    JSVal.round (JSVal.mul (JSVal.sub (JSVal.num 1) normalizedHHI) (JSVal.num 100))

/-- The claim's formula for the diversification score, read in exact
arithmetic: `round((1 - (HHI - 1/n)/(1 - 1/n)) × 100)`, where `HHI` is the
sum over protocols of the squared share of invested amount and `n` the
number of distinct protocols. -/
def divScoreSpec (p : Portfolio) : ℚ :=
  let protocols := distinctFirst (p.investments.map (·.protocol))
  let n : ℚ := (protocols.length : ℚ)
  let hhi := (protocols.map (fun pr =>
    (((p.investments.filter (fun inv => inv.protocol == pr)).map (·.amount)).sum /
      p.totalInvested) ^ 2)).sum
  ((jsRound ((1 - (hhi - 1 / n) / (1 - 1 / n)) * 100) : ℤ) : ℚ)

lemma foldl_share_sq (total : ℚ) (h : total ≠ 0) : ∀ (dist : List ℚ) (a : ℚ),
    dist.foldl (fun sum amount =>
      let marketShare := JSVal.div (JSVal.num amount) (JSVal.num total)
      JSVal.add sum (JSVal.mul marketShare marketShare)) (JSVal.num a) =
    JSVal.num (a + (dist.map (fun x => (x / total) ^ 2)).sum) := by
  intro dist
  induction dist with
  | nil => intro a; simp
  | cons x t ih =>
    intro a
    simp only [List.foldl_cons, List.map_cons, List.sum_cons]
    rw [show (JSVal.div (JSVal.num x) (JSVal.num total)) = JSVal.num (x / total) by
      simp [JSVal.div, h]]
    show List.foldl _ (JSVal.add (JSVal.num a) (JSVal.num (x / total * (x / total)))) t = _
    rw [show JSVal.add (JSVal.num a) (JSVal.num (x / total * (x / total))) =
      JSVal.num (a + x / total * (x / total)) from rfl]
    rw [ih]
    congr 1
    ring


lemma js_score_num (hhiQ perfect : ℚ) (hden : (1 : ℚ) - perfect ≠ 0) :
    JSVal.round (JSVal.mul (JSVal.sub (JSVal.num 1)
      (JSVal.div (JSVal.sub (JSVal.num hhiQ) (JSVal.num perfect))
        (JSVal.num (1 - perfect)))) (JSVal.num 100)) =
    JSVal.num ((jsRound ((1 - (hhiQ - perfect) / (1 - perfect)) * 100) : ℤ) : ℚ) := by
  simp [JSVal.sub, JSVal.div, JSVal.mul, JSVal.round, hden]

lemma distinctFirst_foldl_const (pr : String) : ∀ (l : List String), (∀ x ∈ l, x = pr) →
    l.foldl (fun acc s => if s ∈ acc then acc else acc ++ [s]) [pr] = [pr] := by
  intro l
  induction l with
  | nil => intro _; rfl
  | cons x t ih =>
    intro h
    have hx : x = pr := h x (by simp)
    subst hx
    simp only [List.foldl_cons]
    rw [if_pos (by simp)]
    exact ih (fun y hy => h y (by simp [hy]))

lemma distinctFirst_all_eq (l : List String) (pr : String) (h : ∀ x ∈ l, x = pr)
    (hne : l ≠ []) : distinctFirst l = [pr] := by
  cases l with
  | nil => exact absurd rfl hne
  | cons x t =>
    have hx : x = pr := h x (by simp)
    unfold distinctFirst
    simp only [List.foldl_cons]
    rw [if_neg (by simp), List.nil_append, hx]
    exact distinctFirst_foldl_const pr t (fun y hy => h y (by simp [hy]))

/-- C7 (amended): for every non-empty portfolio with positive `totalInvested`
whose investments span at least two distinct protocols, the diversification
score equals `round((1 - (HHI - 1/n)/(1 - 1/n)) × 100)` read in exact
arithmetic.  (With a single protocol the code divides zero by zero and the
score is NaN; see the counterexample.) -/
theorem diversification_formula_multi_protocol (p : Portfolio)
    (h1 : p.investments ≠ []) (h2 : 0 < p.totalInvested)
    (h3 : 2 ≤ (distinctFirst (p.investments.map (·.protocol))).length) :
    diversificationScoreOf p = JSVal.num (divScoreSpec p) := by
  have htot : p.totalInvested ≠ 0 := ne_of_gt h2
  have hn : (1 : ℚ) -
      1 / ((distinctFirst (p.investments.map (·.protocol))).length : ℚ) ≠ 0 := by
    have hlen : (2 : ℚ) ≤ ((distinctFirst (p.investments.map (·.protocol))).length : ℚ) := by
      exact_mod_cast h3
    have hpos : (0 : ℚ) < ((distinctFirst (p.investments.map (·.protocol))).length : ℚ) := by
      linarith
    have hlt : 1 / ((distinctFirst (p.investments.map (·.protocol))).length : ℚ) < 1 := by
      rw [div_lt_one hpos]; linarith
    intro heq
    have : 1 / ((distinctFirst (p.investments.map (·.protocol))).length : ℚ) = 1 := by
      linarith
    linarith
  unfold diversificationScoreOf divScoreSpec
  rw [if_neg h1]
  simp only [foldl_share_sq _ htot, zero_add, List.map_map, Function.comp]
  rw [js_score_num _ _ hn]
  rfl

/-- A one-investment, single-protocol portfolio. -/
def singleProtocolPortfolio : Portfolio :=
  { investments := [
      { id := "inv-1", poolId := "inv-1", poolName := "USDC-ETH", protocol := "Aave",
        amount := 100, apy := 5, startDate := "2024-01-01", dailyEarnings := [],
        totalEarnings := 0, currentValue := 100, impermanentLoss := 0, tradingFees := 0,
        rewardTokens := [], riskScore := 40, volatility := 5 }]
    totalInvested := 100
    totalCurrentValue := 100
    totalEarnings := 0
    averageApy := 5 }

/-- A two-investment portfolio over two distinct protocols. -/
def twoProtocolPortfolio : Portfolio :=
  { investments := [
      { id := "inv-1", poolId := "inv-1", poolName := "USDC-ETH", protocol := "Aave",
        amount := 100, apy := 5, startDate := "2024-01-01", dailyEarnings := [],
        totalEarnings := 0, currentValue := 100, impermanentLoss := 0, tradingFees := 0,
        rewardTokens := [], riskScore := 40, volatility := 5 },
      { id := "inv-2", poolId := "inv-2", poolName := "DAI", protocol := "Compound",
        amount := 300, apy := 4, startDate := "2024-01-01", dailyEarnings := [],
        totalEarnings := 0, currentValue := 300, impermanentLoss := 0, tradingFees := 0,
        rewardTokens := [], riskScore := 40, volatility := 5 }]
    totalInvested := 400
    totalCurrentValue := 400
    totalEarnings := 0
    averageApy := 17/4 }

/-- Witness for `diversification_formula_multi_protocol` at a concrete
two-protocol portfolio. -/
theorem diversification_formula_multi_protocol_witness :
    diversificationScoreOf twoProtocolPortfolio = JSVal.num (divScoreSpec twoProtocolPortfolio) :=
  diversification_formula_multi_protocol twoProtocolPortfolio (by decide)
    (by norm_num [twoProtocolPortfolio]) (by decide)

lemma diversification_all_same_protocol_nan_aux (p : Portfolio) (pr : String)
    (h1 : p.investments ≠ [])
    (h2 : p.totalInvested = (p.investments.map (·.amount)).sum)
    (h3 : 0 < p.totalInvested)
    (h4 : ∀ inv ∈ p.investments, inv.protocol = pr) :
    diversificationScoreOf p = JSVal.nan := by
  have htot : p.totalInvested ≠ 0 := ne_of_gt h3
  have hproto : distinctFirst (p.investments.map (·.protocol)) = [pr] := by
    apply distinctFirst_all_eq
    · intro x hx
      obtain ⟨inv, hm, rfl⟩ := List.mem_map.mp hx
      exact h4 inv hm
    · simpa using h1
  have hfilter : p.investments.filter (fun inv => inv.protocol == pr) = p.investments := by
    rw [List.filter_eq_self]
    intro a ha
    simp [h4 a ha]
  unfold diversificationScoreOf
  rw [if_neg h1]
  simp only [hproto, List.map_cons, List.map_nil, hfilter, ← h2, List.length_cons,
    List.length_nil, List.foldl_cons, List.foldl_nil]
  have hdiv : JSVal.div (JSVal.num p.totalInvested) (JSVal.num p.totalInvested) =
      JSVal.num 1 := by
    simp [JSVal.div, htot, div_self htot]
  rw [hdiv]
  norm_num [JSVal.add, JSVal.mul, JSVal.sub, JSVal.div, JSVal.round]

/-- C7 as stated fails on a single-protocol portfolio: the code yields NaN
while the claimed formula (read in exact arithmetic) yields 100. -/
theorem diversification_single_protocol_counterexample :
    diversificationScoreOf singleProtocolPortfolio = JSVal.nan ∧
    divScoreSpec singleProtocolPortfolio = 100 ∧
    diversificationScoreOf singleProtocolPortfolio ≠
      JSVal.num (divScoreSpec singleProtocolPortfolio) := by
  have h1 : diversificationScoreOf singleProtocolPortfolio = JSVal.nan :=
    diversification_all_same_protocol_nan_aux singleProtocolPortfolio "Aave" (by decide)
      (by norm_num [singleProtocolPortfolio]) (by norm_num [singleProtocolPortfolio]) (by decide)
  have h2 : divScoreSpec singleProtocolPortfolio = 100 := by
    norm_num [divScoreSpec, singleProtocolPortfolio, distinctFirst, jsRound]
  refine ⟨h1, h2, ?_⟩
  rw [h1, h2]
  intro hcontra
  exact JSVal.noConfusion hcontra

/-- C8: for every non-empty portfolio (with consistent positive
`totalInvested`) in which all investments share one protocol, the
diversification normalisation divides zero by zero and the score is NaN
rather than a number in the 0-100 range. -/
theorem diversification_single_protocol_nan (p : Portfolio) (pr : String)
    (h1 : p.investments ≠ [])
    (h2 : p.totalInvested = (p.investments.map (·.amount)).sum)
    (h3 : 0 < p.totalInvested)
    (h4 : ∀ inv ∈ p.investments, inv.protocol = pr) :
    diversificationScoreOf p = JSVal.nan :=
  diversification_all_same_protocol_nan_aux p pr h1 h2 h3 h4

/-- Witness for `diversification_single_protocol_nan` at a concrete
single-protocol portfolio. -/
theorem diversification_single_protocol_nan_witness :
    diversificationScoreOf singleProtocolPortfolio = JSVal.nan :=
  diversification_single_protocol_nan singleProtocolPortfolio "Aave" (by decide)
    (by norm_num [singleProtocolPortfolio]) (by norm_num [singleProtocolPortfolio]) (by decide)

/-! ## Yield service (`src/lib/services/yieldService.ts`) -/

/-- A yield opportunity as produced by the service
(`YieldOpportunity` of `YieldTable`, the fields present in the mock data). -/
structure YieldOpportunity where
  protocol : String
  asset : String
  symbol : String
  apr : ℚ
  tvl : ℚ
  userBalance : ℚ
  depositUrl : String
  contractAddress : String
  deriving Repr, DecidableEq

/-- The service's `mockYieldData` constant. -/
def mockYieldData : List YieldOpportunity :=
  [{ protocol := "Aave", asset := "USDC", symbol := "USDC", apr := 26/5, tvl := 500000000,
     userBalance := 100,
     depositUrl := "https://app.aave.com/reserve-overview/?underlyingAsset=0x2791bca1f2de4661ed88a30c99a7a9449aa84174&marketName=proto_polygon_v3",
     contractAddress := "0x794a61358D6845594F94dc1DB02A252b5b4814aD" },
   { protocol := "Compound", asset := "USDC", symbol := "USDC", apr := 24/5, tvl := 300000000,
     userBalance := 100,
     depositUrl := "https://app.compound.finance/",
     contractAddress := "0xF25212E676D1F7F89Cd72fFEe66158f541246445" },
   { protocol := "Aave", asset := "DAI", symbol := "DAI", apr := 9/2, tvl := 200000000,
     userBalance := 50,
     depositUrl := "https://app.aave.com/reserve-overview/?underlyingAsset=0x8f3cf7ad23cd3cadbd9735aff958023239c6a063&marketName=proto_polygon_v3",
     contractAddress := "0x794a61358D6845594F94dc1DB02A252b5b4814aD" },
   { protocol := "Compound", asset := "DAI", symbol := "DAI", apr := 21/5, tvl := 150000000,
     userBalance := 50,
     depositUrl := "https://app.compound.finance/",
     contractAddress := "0xF25212E676D1F7F89Cd72fFEe66158f541246445" },
   { protocol := "Aave", asset := "WETH", symbol := "WETH", apr := 21/10, tvl := 800000000,
     userBalance := 1/2,
     depositUrl := "https://app.aave.com/reserve-overview/?underlyingAsset=0x7ceb23fd6bc0add59e62ac25578270cff1b9f619&marketName=proto_polygon_v3",
     contractAddress := "0x794a61358D6845594F94dc1DB02A252b5b4814aD" },
   { protocol := "Compound", asset := "WETH", symbol := "WETH", apr := 19/10, tvl := 600000000,
     userBalance := 1/2,
     depositUrl := "https://app.compound.finance/",
     contractAddress := "0xF25212E676D1F7F89Cd72fFEe66158f541246445" }]

/-- The body of `getYieldOpportunities`' `try` block (the underlying data
retrieval; in the current source the mock path, which never throws):
without an address, the mock data with `userBalance` zeroed; with one, the
mock data as is. -/
def yieldDataRetrieval (address : Option String) : Except String (List YieldOpportunity) :=
  Except.ok (match address with
    | none => mockYieldData.map (fun opportunity => { opportunity with userBalance := 0 })
    | some _ => mockYieldData)

/-- The `try`/`catch` wrapper of `getYieldOpportunities`, with the `try`
block as a parameter so that throwing retrievals can be considered: on an
exception the `catch` logs the error to the console (a side effect outside
this embedding) and returns the empty array. -/
def getYieldOpportunitiesWith
    (fetchData : Option String → Except String (List YieldOpportunity))
    (address : Option String) : List YieldOpportunity :=
  match fetchData address with
  | Except.ok opportunities => opportunities
  | Except.error _ => []

/-- `getYieldOpportunities` as shipped: the wrapper around the mock retrieval. -/
def getYieldOpportunities (address : Option String) : List YieldOpportunity :=
  getYieldOpportunitiesWith yieldDataRetrieval address

/-- C6: `getYieldOpportunities` never propagates an error: for every input
address, whenever the underlying data retrieval throws, the function
returns the empty array instead of raising. -/
theorem getYieldOpportunities_error_returns_empty
    (fetchData : Option String → Except String (List YieldOpportunity))
    (address : Option String) (e : String) (h : fetchData address = Except.error e) :
    getYieldOpportunitiesWith fetchData address = [] := by
  unfold getYieldOpportunitiesWith
  rw [h]

/-- Witness for `getYieldOpportunities_error_returns_empty` at a concrete
throwing retrieval. -/
theorem getYieldOpportunities_error_returns_empty_witness :
    getYieldOpportunitiesWith (fun _ => Except.error "network failure") none = [] :=
  getYieldOpportunities_error_returns_empty (fun _ => Except.error "network failure")
    none "network failure" rfl

/-! ## Liquidity scanner risk score (`src/unnamed/part_007`) -/

/-- One side of a liquidity pair (`token0` / `token1`). -/
structure PairToken where
  address : String
  symbol : String
  name : String
  decimals : ℕ
  price : ℚ
  deriving Repr, DecidableEq

/-- A reward token of a liquidity pair. -/
structure PairRewardToken where
  symbol : String
  address : String
  rewardRate : ℚ
  price : ℚ
  deriving Repr, DecidableEq

/-- A liquidity pair (`interface LiquidityPair`); `riskLevel` is one of
`low`, `medium`, `high`. -/
structure LiquidityPair where
  pairAddress : String
  token0 : PairToken
  token1 : PairToken
  protocol : String
  tvl : ℚ
  apr : ℚ
  rewardTokens : List PairRewardToken
  riskLevel : String
  farmUrl : String
  swapUrl : String
  fee : ℚ
  volume24h : ℚ
  volumeChange7d : ℚ
  deriving Repr, DecidableEq

/-- Stablecoin symbols recognised by `calculateRiskScore`. -/
def stablecoins : List String :=
  ["USDC", "DAI", "USDT", "BUSD", "USDP", "TUSD", "FRAX", "LUSD"]

/-- Blue-chip token symbols recognised by `calculateRiskScore`. -/
def blueChipTokens : List String :=
  ["WETH", "WBTC", "WMATIC", "LINK", "AAVE", "UNI", "MKR"]

/-- Token-pair risk factor of `calculateRiskScore` (first `+=` block). -/
def tokenPairRiskFactor (pair : LiquidityPair) : ℕ :=
  let isStablePair :=
    stablecoins.contains pair.token0.symbol && stablecoins.contains pair.token1.symbol
  let isBlueChipPair :=
    (blueChipTokens.contains pair.token0.symbol || stablecoins.contains pair.token0.symbol) &&
    (blueChipTokens.contains pair.token1.symbol || stablecoins.contains pair.token1.symbol)
  if isStablePair then 1
  else if isBlueChipPair then 2
  else if blueChipTokens.contains pair.token0.symbol ||
      blueChipTokens.contains pair.token1.symbol then 3
  else 4

/-- Protocol risk factor of `calculateRiskScore` (second `+=` block). -/
def protocolRiskFactor (pair : LiquidityPair) : ℕ :=
  let topTierProtocols := ["Curve", "Aave", "Compound", "Uniswap"]
  let midTierProtocols := ["SushiSwap", "QuickSwap", "Balancer", "Bancor"]
  let lowerTierProtocols := ["PancakeSwap", "TraderJoe"]
  if topTierProtocols.contains pair.protocol then 1
  else if midTierProtocols.contains pair.protocol then 2
  else if lowerTierProtocols.contains pair.protocol then 3
  else 4

/-- TVL risk factor of `calculateRiskScore` (third `+=` block). -/
def tvlRiskFactor (pair : LiquidityPair) : ℕ :=
  if 10000000 < pair.tvl then 1
  else if 5000000 < pair.tvl then 2
  else if 1000000 < pair.tvl then 3
  else 4

/-- Volume risk factor of `calculateRiskScore` (fourth `+=` block). -/
def volumeRiskFactor (pair : LiquidityPair) : ℕ :=
  if 5000000 < pair.volume24h then 1
  else if 2000000 < pair.volume24h then 2
  else if 500000 < pair.volume24h then 3
  else 4

/-- Volume-stability risk factor of `calculateRiskScore` (fifth `+=` block). -/
def volumeStabilityRiskFactor (pair : LiquidityPair) : ℕ :=
  if |pair.volumeChange7d| < 5 then 1
  else if |pair.volumeChange7d| < 15 then 2
  else if |pair.volumeChange7d| < 30 then 3
  else 4

/-- `calculateRiskScore`: the sum of the five additive risk factors
accumulated into `riskScore` (its trailing comment claims a `6-24` range). -/
def calculateRiskScore (pair : LiquidityPair) : ℕ :=
  tokenPairRiskFactor pair + protocolRiskFactor pair + tvlRiskFactor pair +
    volumeRiskFactor pair + volumeStabilityRiskFactor pair

/-- The `maxRiskScore` constant used by `calculatePotentialProfit` when
computing the quality score ("Maximum possible risk score"). -/
def maxRiskScore : ℕ := 24

lemma tokenPairRiskFactor_bounds (pair : LiquidityPair) :
    1 ≤ tokenPairRiskFactor pair ∧ tokenPairRiskFactor pair ≤ 4 := by
  unfold tokenPairRiskFactor
  dsimp only
  split_ifs <;> omega

lemma protocolRiskFactor_bounds (pair : LiquidityPair) :
    1 ≤ protocolRiskFactor pair ∧ protocolRiskFactor pair ≤ 4 := by
  unfold protocolRiskFactor
  dsimp only
  split_ifs <;> omega

lemma tvlRiskFactor_bounds (pair : LiquidityPair) :
    1 ≤ tvlRiskFactor pair ∧ tvlRiskFactor pair ≤ 4 := by
  unfold tvlRiskFactor
  split_ifs <;> omega

lemma volumeRiskFactor_bounds (pair : LiquidityPair) :
    1 ≤ volumeRiskFactor pair ∧ volumeRiskFactor pair ≤ 4 := by
  unfold volumeRiskFactor
  split_ifs <;> omega

lemma volumeStabilityRiskFactor_bounds (pair : LiquidityPair) :
    1 ≤ volumeStabilityRiskFactor pair ∧ volumeStabilityRiskFactor pair ≤ 4 := by
  unfold volumeStabilityRiskFactor
  split_ifs <;> omega

/-- C10: for every liquidity pair, `calculateRiskScore` is the sum of five
additive factors, each between 1 and 4, hence an integer between 5 and 20
inclusive, while the quality-score computation of `calculatePotentialProfit`
treats 24 as the maximum possible risk score. -/
theorem pair_risk_score_bounds (pair : LiquidityPair) :
    calculateRiskScore pair =
      tokenPairRiskFactor pair + protocolRiskFactor pair + tvlRiskFactor pair +
        volumeRiskFactor pair + volumeStabilityRiskFactor pair ∧
    5 ≤ calculateRiskScore pair ∧ calculateRiskScore pair ≤ 20 ∧ maxRiskScore = 24 := by
  have h1 := tokenPairRiskFactor_bounds pair
  have h2 := protocolRiskFactor_bounds pair
  have h3 := tvlRiskFactor_bounds pair
  have h4 := volumeRiskFactor_bounds pair
  have h5 := volumeStabilityRiskFactor_bounds pair
  refine ⟨rfl, ?_, ?_, rfl⟩ <;> unfold calculateRiskScore <;> omega

end YieldSnap
